import Mathlib

/-!
# cosign-webapi: startup, token registry, route table and shutdown

A shallow embedding of `main.go` (function `main`) and `pkg/api/api.go`
(function `NewAPI`), followed by theorems about them.

* Go's `map[string]string` is embedded as `GoMap`, a list of entries with
  distinct keys, with the three operations the program uses: the comma-ok
  lookup `_, ok := m[k]`, the assignment `m[k] = v`, and `len`.
* A Go `error` value is embedded as `Option String` (`none` is `nil`, `some s`
  is an error whose `Error()` text is `s`).
* `main` talks to the outside world (logrus, go-cosign, the HTTP server, the
  signal channel).  What the outside world answers is collected in `Env`; what
  `main` does to the outside world is recorded, in program order, as a list of
  `Event`s, together with the exit code of the process.
-/

namespace CosignWebapi

/-! ## Data model -/

/-- One entry of `cfg.Tokens`: the fields `Name` and `Key` read by `main`. -/
structure Token where
  Name : String
  Key : String
  deriving DecidableEq, Repr

/-- The value `cfg.CoSign` handed to `cosign.NewFilter`; `main` reads its field
`DaemonAddress`. -/
structure CoSignConfig where
  DaemonAddress : String
  deriving DecidableEq, Repr

/-- The fields of `config.Config` that `main` reads. -/
structure Config where
  LogLevel : String
  Tokens : List Token
  CoSign : CoSignConfig
  Address : String
  deriving DecidableEq, Repr

/-- Go's `map[string]string`, as the list of its entries. -/
structure GoMap where
  entries : List (String × String)
  deriving DecidableEq, Repr

namespace GoMap

/-- The map literal `map[string]string{}`. -/
def empty : GoMap := ⟨[]⟩

/-- Entry list lookup behind `v, ok := m[k]`: the value stored under `k`, or
`none` when no entry has that key. -/
def getEntries : List (String × String) → String → Option String
  | [], _ => none
  | (k', v') :: rest, k => if k' = k then some v' else getEntries rest k

/-- The comma-ok lookup `v, ok := m[k]`: `none` when `ok` is false. -/
def get (m : GoMap) (k : String) : Option String :=
  getEntries m.entries k

/-- Entry list after the assignment `m[k] = v`: an existing entry for `k` is
overwritten, otherwise a new entry is added. -/
def setEntries : List (String × String) → String → String → List (String × String)
  | [], k, v => [(k, v)]
  | (k', v') :: rest, k, v =>
    if k' = k then (k, v) :: rest else (k', v') :: setEntries rest k v

/-- The assignment `m[k] = v`. -/
def set (m : GoMap) (k v : String) : GoMap :=
  ⟨setEntries m.entries k v⟩

/-- The builtin `len(m)`. -/
def len (m : GoMap) : Nat :=
  m.entries.length

end GoMap

/-- The loop of `main` (lines 38-53) from a given state of `tokens`: for each
token, `_, ok := tokens[token.Name]`; when `ok`, the loop stops and `main`
returns (`Except.error` carries the name written to the log); otherwise
`tokens[token.Name] = token.Key`. -/
def tokensLoop : GoMap → List Token → Except String GoMap
  | tokens, [] => .ok tokens
  | tokens, token :: rest =>
    match tokens.get token.Name with
    | some _ => .error token.Name
    | none => tokensLoop (tokens.set token.Name token.Key) rest

/-- The registry build of `main`: `tokens := map[string]string{}` followed by
the loop over `cfg.Tokens`. -/
def buildTokens (cfgTokens : List Token) : Except String GoMap :=
  tokensLoop GoMap.empty cfgTokens

/-! ## The route table of `NewAPI` -/

/-- The two handler methods `NewAPI` binds: `frontend.Impl.Valid` and
`backend.Impl.Check`. -/
inductive Handler where
  | frontendValid
  | backendCheck
  deriving DecidableEq, Repr

/-- One registered route of the gin router. -/
structure Route where
  method : String
  path : String
  handler : Handler
  deriving DecidableEq, Repr

/-- The gin router, as its list of registered routes in registration order. -/
structure Engine where
  routes : List Route
  deriving DecidableEq, Repr

/-- The router `gin.Default()`: no route is registered yet. -/
def Engine.Default : Engine := ⟨[]⟩

/-- The call `router.GET(relativePath, handler)`. -/
def Engine.GET (router : Engine) (relativePath : String) (handler : Handler) : Engine :=
  ⟨router.routes ++ [⟨"GET", relativePath, handler⟩]⟩

/-- The handle `*cosign.Filter` returned by `cosign.NewFilter(cfg.CoSign)`. -/
structure Filter where
  conf : CoSignConfig
  deriving DecidableEq, Repr

/-- The value `base.API` with the fields `NewAPI` fills in (the logger field is
left out: logging is recorded as events). -/
structure API where
  Config : Config
  Filter : Filter
  Gin : Engine
  Tokens : GoMap
  deriving DecidableEq, Repr

/-- The function `NewAPI` of `pkg/api/api.go`. -/
def NewAPI (conf : Config) (filter : Filter) (tokens : GoMap) : API :=
  let router := Engine.Default
  let router := router.GET "/cosign/valid" Handler.frontendValid
  let router := router.GET "/check/:token_name/:token_key/:login_cookie" Handler.backendCheck
  { Config := conf, Filter := filter, Gin := router, Tokens := tokens }

/-- One segment of a gin route pattern: a literal, or a named parameter written
`:name`. -/
inductive Segment where
  | literal (text : String)
  | param (name : String)
  deriving DecidableEq, Repr

/-- Splits a list of characters at every `/`. -/
def splitSlash : List Char → List Char → List (List Char)
  | acc, [] => [acc.reverse]
  | acc, c :: cs =>
    if c = '/' then acc.reverse :: splitSlash [] cs else splitSlash (c :: acc) cs

/-- Reads one piece of a pattern: `:name` is a parameter, anything else a
literal. -/
def toSegment : List Char → Segment
  | ':' :: name => Segment.param (String.mk name)
  | text => Segment.literal (String.mk text)

/-- The segments of a gin route pattern, after its leading `/`. -/
def segmentsOf (path : String) : List Segment :=
  ((splitSlash [] path.toList).drop 1).map toSegment

/-! ## The token check handler -/

/-- Modelled from the spec: the response of a validation handler (the package
`pkg/api/backend` is not among the sources). Section 4.3: HTTP 200 with an
explicit boolean body on a definitive verdict, HTTP 5xx when the Session
Validator Client is unreachable or errors. -/
inductive Response where
  | verdict (valid : Bool)
  | unavailable
  deriving DecidableEq, Repr

/-- Modelled from the spec: the machine-readable status of section 6. -/
inductive Status where
  | AUTHORIZED
  | UNAUTHORIZED
  | SERVICE_UNAVAILABLE
  deriving DecidableEq, Repr

/-- Modelled from the spec: the status a response carries (section 6). -/
def Response.status : Response → Status
  | .verdict true => Status.AUTHORIZED
  | .verdict false => Status.UNAUTHORIZED
  | .unavailable => Status.SERVICE_UNAVAILABLE

/-- Modelled from the spec: the handler `backend.Impl.Check`, whose source is
missing. Section 4.3, Token check: look `name` up in the registry, not found
is unauthorized; compare the presented key to the stored key, mismatch is
unauthorized; when both match forward the session identifier to `Validate`
and propagate its verdict. `validate` stands for the Session Validator Client
(`Except.error` is a connection error). -/
def Check (tokens : GoMap) (validate : String → Except String Bool)
    (name presentedKey sessionID : String) : Response :=
  match tokens.get name with
  | none => Response.verdict false
  | some storedKey =>
    if presentedKey = storedKey then
      match validate sessionID with
      | .ok valid => Response.verdict valid
      | .error _ => Response.unavailable
    else Response.verdict false

/-! ## The function `main` -/

/-- What `main` does to the outside world, one constructor per kind of call. -/
inductive Event where
  /-- Call `logger.WithFields(fields).Info(msg)`. -/
  | info (fields : List (String × String)) (msg : String)
  /-- Call `logger.WithFields(fields).Fatal(msg)`: writes the entry, then
  `os.Exit(1)`. -/
  | fatal (fields : List (String × String)) (msg : String)
  /-- Call `panic(err)`. -/
  | panicked (err : String)
  /-- Call `cosign.NewFilter(cfg.CoSign)`. -/
  | newFilter (conf : CoSignConfig)
  /-- Call `api.NewAPI(cfg, logger, filter, tokens)`, with the value it returns. -/
  | newAPI (api : API)
  /-- The `go` statement of line 79, whose function calls `api.Start()`; with
  the bind address `cfg.Address`. -/
  | goStart (bind : String)
  /-- Call `signal.Notify(sc, os.Interrupt, syscall.SIGINT, syscall.SIGTERM)`. -/
  | notify
  /-- The receive `<-sc` has returned: a termination signal was received. -/
  | signalled
  /-- Call `logger.Out.Write(bytes)`. -/
  | write (bytes : String)
  /-- Call `filter.Quit()`. -/
  | quit
  /-- Call `context.WithTimeout(context.Background(), d)`, `d` in nanoseconds. -/
  | withTimeout (d : Nat)
  /-- Call `api.Shutdown(ctx)`, with the timeout of `ctx` in nanoseconds. -/
  | shutdown (timeout : Nat)
  /-- The deferred `cancel()`, run when `main` returns. -/
  | cancel
  deriving DecidableEq, Repr

/-- What the outside world answers to `main`. An `Option String` is a Go
`error`: `none` is `nil`. -/
structure Env where
  /-- The `err` of `logrus.ParseLevel(cfg.LogLevel)`. -/
  parseLevel : Option String
  /-- The `err` of `cosign.NewFilter(cfg.CoSign)`. -/
  newFilter : Option String
  /-- Whether a termination signal is ever delivered to `sc`. -/
  signal : Bool
  /-- The `err` of `filter.Quit()`. -/
  quit : Option String
  /-- The `err` of `api.Shutdown(ctx)`. -/
  shutdown : Option String
  /-- The goroutine of line 79: `some (k, e)` when `api.Start()` returns the
  error `e` after `main` has gone `k` events past the `go` statement; `none`
  when `api.Start()` returns no error while `main` runs. -/
  start : Option (Nat × String)
  deriving DecidableEq, Repr

/-- One run of the process: the events in program order and the exit code
(`none`: `main` stays blocked on `<-sc`, the process does not exit). -/
structure Run where
  trace : List Event
  exit : Option Nat
  deriving DecidableEq, Repr

/-- The constant `time.Second`, in nanoseconds. -/
def Second : Nat := 1000000000

/-- Lines 93-122 of `main`, on the main goroutine alone: wait for a signal,
`filter.Quit()`, then `api.Shutdown(ctx)` under `5*time.Second`. `Fatal` ends
the process with code 1 (the deferred `cancel` does not run); returning from
`main` runs the deferred `cancel` and ends it with code 0. -/
def shutdownPath (env : Env) : Run :=
  if env.signal then
    let t := [Event.notify, Event.signalled, Event.write "\r\n", Event.quit]
    match env.quit with
    | some e =>
      ⟨t ++ [Event.fatal [("module", "init"), ("error", e)] "Failed to close the API server"],
        some 1⟩
    | none =>
      let t := t ++ [Event.withTimeout (5 * Second), Event.shutdown (5 * Second)]
      match env.shutdown with
      | some e =>
        ⟨t ++ [Event.fatal [("module", "init"), ("error", e)] "Failed to close the API server"],
          some 1⟩
      | none =>
        ⟨t ++ [Event.info [("module", "init")] "dice-api has shut down.", Event.cancel], some 0⟩
  else
    ⟨[Event.notify], none⟩

/-- The goroutine of lines 79-91 running beside the rest of `main`: when
`api.Start()` returns an error, `Fatal` ends the process with code 1 at that
point, provided `main` has not ended it before. The Info entry of the goroutine
and its call of `api.Start()` happen at some point after the `go` statement and
are not placed in the trace. -/
def withStart (start : Option (Nat × String)) (r : Run) : Run :=
  match start with
  | none => r
  | some (k, e) =>
    if k < r.trace.length ∨ r.exit = none then
      ⟨r.trace.take k ++ [Event.fatal [("module", "init"), ("error", e)] "API server failed"],
        some 1⟩
    else r

/-- The function `main` of `main.go`, from line 25 on, for a loaded
configuration `cfg`. Exit codes: 0 when `main` returns, 1 after `Fatal`, 2 after
`panic`. -/
def main (cfg : Config) (env : Env) : Run :=
  match env.parseLevel with
  | some e => ⟨[Event.panicked e], some 2⟩
  | none =>
    let t := [Event.info [("module", "init")] "Starting up dice-api"]
    match buildTokens cfg.Tokens with
    | .error name =>
      ⟨t ++ [Event.info [("module", "init"), ("name", name)]
        "multiple tokens exist with the same name"], some 0⟩
    | .ok tokens =>
      let t := t ++ [Event.newFilter cfg.CoSign]
      match env.newFilter with
      | some e =>
        ⟨t ++ [Event.fatal
          [("module", "init"), ("error", e), ("addr", cfg.CoSign.DaemonAddress)]
          "Unable to connect to the CoSign daemon"], some 1⟩
      | none =>
        let filter : Filter := ⟨cfg.CoSign⟩
        let api := NewAPI cfg filter tokens
        let t := t ++ [Event.info [("module", "init"), ("addr", cfg.CoSign.DaemonAddress)]
          "Connected to the CoSign daemon", Event.newAPI api, Event.goStart cfg.Address]
        let r := withStart env.start (shutdownPath env)
        ⟨t ++ r.trace, r.exit⟩

/-- The event is a call of `cosign.NewFilter`. -/
def Event.isNewFilter : Event → Bool
  | .newFilter _ => true
  | _ => false

/-- The event is a call of `api.NewAPI`. -/
def Event.isNewAPI : Event → Bool
  | .newAPI _ => true
  | _ => false

/-- The event is the `go` statement that launches `api.Start()`. -/
def Event.isGoStart : Event → Bool
  | .goStart _ => true
  | _ => false

/-- The event is the receipt of a termination signal. -/
def Event.isSignalled : Event → Bool
  | .signalled => true
  | _ => false

/-- The event is a call of `filter.Quit()`. -/
def Event.isQuit : Event → Bool
  | .quit => true
  | _ => false

/-- The event is a call of `api.Shutdown(ctx)`. -/
def Event.isShutdown : Event → Bool
  | .shutdown _ => true
  | _ => false

/-- Some event satisfying `p` comes, in the trace, before some event satisfying
`q`. -/
def occursBefore (p q : Event → Bool) : List Event → Bool
  | [] => false
  | e :: rest => (p e && rest.any q) || occursBefore p q rest

/-- A configuration with two tokens of distinct names. -/
def cfgDistinct : Config :=
  ⟨"info", [⟨"svc-a", "secret1"⟩, ⟨"svc-b", "secret2"⟩], ⟨"127.0.0.1:6663"⟩, ":8080"⟩

/-- A configuration in which the name `svc-a` occurs twice. -/
def cfgDuplicate : Config :=
  ⟨"info", [⟨"svc-a", "secret1"⟩, ⟨"svc-a", "secret2"⟩], ⟨"127.0.0.1:6663"⟩, ":8080"⟩

/-- An outside world in which every call succeeds, a termination signal is
delivered and `api.Start()` reports no error. -/
def envClean : Env :=
  ⟨none, none, true, none, none, none⟩

/-- An outside world in which `filter.Quit()` returns an error after the
signal. -/
def envQuitFails : Env :=
  ⟨none, none, true, some "quit failed", none, none⟩

/-- An outside world in which `filter.Quit()` succeeds and `api.Shutdown(ctx)`
returns an error. -/
def envShutdownFails : Env :=
  ⟨none, none, true, none, some "context deadline exceeded", none⟩

/-- A validator that reports every session identifier valid. -/
def validateAll : String → Except String Bool :=
  fun _ => .ok true

/-- The registry of the concrete scenario of the specification. -/
def registrySvcA : GoMap :=
  ⟨[("svc-a", "secret1")]⟩

/-! ## Registry lemmas -/

theorem GoMap.get_setEntries (es : List (String × String)) (k v n : String) :
    GoMap.getEntries (GoMap.setEntries es k v) n
      = if n = k then some v else GoMap.getEntries es n := by
  induction es with
  | nil =>
    by_cases h : k = n
    · simp [GoMap.setEntries, GoMap.getEntries, h]
    · have h2 : ¬ n = k := fun e => h e.symm
      simp [GoMap.setEntries, GoMap.getEntries, h, h2]
  | cons e rest ih =>
    obtain ⟨k', v'⟩ := e
    by_cases hk : k' = k
    · subst hk
      by_cases h : k' = n
      · simp [GoMap.setEntries, GoMap.getEntries, h]
      · have h2 : ¬ n = k' := fun e => h e.symm
        simp [GoMap.setEntries, GoMap.getEntries, h, h2]
    · by_cases h : k' = n
      · subst h
        simp [GoMap.setEntries, GoMap.getEntries, hk]
      · simp [GoMap.setEntries, GoMap.getEntries, hk, h, ih]

theorem GoMap.get_set (m : GoMap) (k v n : String) :
    (m.set k v).get n = if n = k then some v else m.get n := by
  simp [GoMap.set, GoMap.get, GoMap.get_setEntries]

theorem GoMap.length_setEntries (es : List (String × String)) (k v : String)
    (h : GoMap.getEntries es k = none) :
    (GoMap.setEntries es k v).length = es.length + 1 := by
  induction es with
  | nil => simp [GoMap.setEntries]
  | cons e rest ih =>
    obtain ⟨k', v'⟩ := e
    by_cases hk : k' = k
    · simp [GoMap.getEntries, hk] at h
    · simp only [GoMap.getEntries, hk, if_false] at h
      simp [GoMap.setEntries, hk, ih h]

theorem GoMap.len_set (m : GoMap) (k v : String) (h : m.get k = none) :
    (m.set k v).len = m.len + 1 := by
  simp [GoMap.set, GoMap.len, GoMap.length_setEntries m.entries k v h]

theorem GoMap.get_empty (n : String) : GoMap.empty.get n = none := by
  simp [GoMap.empty, GoMap.get, GoMap.getEntries]

/-- The loop stops with an error exactly when the remaining names are not
pairwise distinct or one of them is already a key of the map. -/
theorem tokensLoop_error_iff (ts : List Token) (m : GoMap) :
    (∃ n, tokensLoop m ts = .error n) ↔
      ¬ ((ts.map Token.Name).Nodup ∧ ∀ t ∈ ts, m.get t.Name = none) := by
  induction ts generalizing m with
  | nil => simp [tokensLoop]
  | cons t rest ih =>
    cases hget : m.get t.Name with
    | some v =>
      simp [tokensLoop, hget]
    | none =>
      simp only [tokensLoop, hget, ih, GoMap.get_set]
      have key : (∀ t' ∈ rest, (if t'.Name = t.Name then some t.Key else m.get t'.Name) = none)
          ↔ ((∀ t' ∈ rest, ¬ t'.Name = t.Name) ∧ ∀ t' ∈ rest, m.get t'.Name = none) := by
        constructor
        · intro h
          refine ⟨fun t' ht' hEq => ?_, fun t' ht' => ?_⟩
          · have := h t' ht'
            simp [hEq] at this
          · have := h t' ht'
            by_cases hEq : t'.Name = t.Name
            · simp [hEq] at this
            · simpa [hEq] using this
        · rintro ⟨h1, h2⟩ t' ht'
          simp [h1 t' ht', h2 t' ht']
      rw [key]
      simp only [List.map_cons, List.nodup_cons, List.mem_cons, forall_eq_or_imp, hget,
        List.mem_map, not_exists, not_and, true_and]
      tauto

/-- When the remaining names are pairwise distinct and none of them is a key of
the map yet, the loop runs to its end; the final map holds every remaining
token under its name, leaves every other name as it was, and has grown by one
entry per token. -/
theorem tokensLoop_ok (ts : List Token) (m : GoMap)
    (hnd : (ts.map Token.Name).Nodup) (hfresh : ∀ t ∈ ts, m.get t.Name = none) :
    ∃ m', tokensLoop m ts = .ok m' ∧ (∀ t ∈ ts, m'.get t.Name = some t.Key) ∧
      (∀ n, n ∉ ts.map Token.Name → m'.get n = m.get n) ∧ m'.len = m.len + ts.length := by
  induction ts generalizing m with
  | nil => exact ⟨m, by simp [tokensLoop]⟩
  | cons t rest ih =>
    have hget : m.get t.Name = none := hfresh t (List.mem_cons_self _ _)
    rw [List.map_cons, List.nodup_cons] at hnd
    have hne : ∀ t' ∈ rest, ¬ t'.Name = t.Name := fun t' ht' hEq =>
      hnd.1 (hEq ▸ List.mem_map_of_mem Token.Name ht')
    have hfresh' : ∀ t' ∈ rest, (m.set t.Name t.Key).get t'.Name = none := by
      intro t' ht'
      rw [GoMap.get_set, if_neg (hne t' ht')]
      exact hfresh t' (List.mem_cons_of_mem _ ht')
    obtain ⟨m', hrun, hall, hother, hlen⟩ := ih (m.set t.Name t.Key) hnd.2 hfresh'
    refine ⟨m', by simp [tokensLoop, hget, hrun], ?_, ?_, ?_⟩
    · intro t' ht'
      rcases List.mem_cons.mp ht' with rfl | hin
      · rw [hother _ hnd.1, GoMap.get_set, if_pos rfl]
      · exact hall t' hin
    · intro n hn
      rw [List.map_cons, List.mem_cons, not_or] at hn
      rw [hother n hn.2, GoMap.get_set, if_neg hn.1]
    · rw [hlen, GoMap.len_set m _ _ hget, List.length_cons]
      omega

/-- The name reported by a stopped loop is a key of the starting map that occurs
among the remaining names, or occurs at least twice among them. -/
theorem tokensLoop_error_name (ts : List Token) (m : GoMap) (n : String)
    (h : tokensLoop m ts = .error n) :
    (m.get n ≠ none ∧ n ∈ ts.map Token.Name) ∨ 2 ≤ (ts.map Token.Name).count n := by
  induction ts generalizing m with
  | nil => simp [tokensLoop] at h
  | cons t rest ih =>
    cases hget : m.get t.Name with
    | some v =>
      simp only [tokensLoop, hget, Except.error.injEq] at h
      subst h
      left
      exact ⟨by simp [hget], by simp⟩
    | none =>
      simp only [tokensLoop, hget] at h
      rcases ih _ h with ⟨h1, h2⟩ | h2
      · by_cases hEq : n = t.Name
        · right
          have hpos : 0 < (rest.map Token.Name).count n := List.count_pos_iff.mpr h2
          rw [List.map_cons, hEq, List.count_cons_self]
          rw [hEq] at hpos
          omega
        · left
          rw [GoMap.get_set, if_neg hEq] at h1
          exact ⟨h1, by simp [h2]⟩
      · right
        rw [List.map_cons]
        exact le_trans h2 (List.count_le_count_cons _ _ _)

theorem buildTokens_error_iff (ts : List Token) :
    (∃ n, buildTokens ts = .error n) ↔ ¬ (ts.map Token.Name).Nodup := by
  simp [buildTokens, tokensLoop_error_iff, GoMap.get_empty]

theorem buildTokens_ok (ts : List Token) (hnd : (ts.map Token.Name).Nodup) :
    ∃ m, buildTokens ts = .ok m ∧ (∀ t ∈ ts, m.get t.Name = some t.Key) ∧
      (∀ n, n ∉ ts.map Token.Name → m.get n = none) ∧ m.len = ts.length := by
  obtain ⟨m, h1, h2, h3, h4⟩ :=
    tokensLoop_ok ts GoMap.empty hnd (fun _ _ => GoMap.get_empty _)
  refine ⟨m, h1, h2, fun n hn => ?_, ?_⟩
  · rw [h3 n hn, GoMap.get_empty]
  · simpa [GoMap.len, GoMap.empty] using h4

theorem buildTokens_error_name (ts : List Token) (n : String)
    (h : buildTokens ts = .error n) : 2 ≤ (ts.map Token.Name).count n := by
  rcases tokensLoop_error_name ts GoMap.empty n h with ⟨h1, _⟩ | h2
  · exact absurd (GoMap.get_empty n) h1
  · exact h2

/-! ## Claims about the token registry -/

/-- C2: for every token list whose names are pairwise distinct, the registry
build loop of `main` completes without aborting, and looking up the name of any
token of the list in the resulting map returns exactly that token's key; `main`
goes on past the loop to `cosign.NewFilter`. -/
theorem buildTokens_distinct_lookup (cfg : Config) (env : Env)
    (hnd : (cfg.Tokens.map Token.Name).Nodup) :
    (∃ tokens, buildTokens cfg.Tokens = .ok tokens ∧
      ∀ t ∈ cfg.Tokens, tokens.get t.Name = some t.Key) ∧
    (env.parseLevel = none → Event.newFilter cfg.CoSign ∈ (main cfg env).trace) := by
  obtain ⟨m, hm, hall, -, -⟩ := buildTokens_ok cfg.Tokens hnd
  refine ⟨⟨m, hm, hall⟩, fun hp => ?_⟩
  cases hf : env.newFilter <;> simp [main, hp, hm, hf]

/-- Witness of C2 on a configuration of two tokens with distinct names. -/
theorem buildTokens_distinct_lookup_witness :
    (cfgDistinct.Tokens.map Token.Name).Nodup ∧
    (∃ tokens, buildTokens cfgDistinct.Tokens = .ok tokens ∧
      ∀ t ∈ cfgDistinct.Tokens, tokens.get t.Name = some t.Key) ∧
    (envClean.parseLevel = none →
      Event.newFilter cfgDistinct.CoSign ∈ (main cfgDistinct envClean).trace) :=
  ⟨by decide, buildTokens_distinct_lookup cfgDistinct envClean (by decide)⟩

/-- C10: the registry build loop of `main` aborts if and only if the token list
contains a repeated name; when it does not abort, a name is found in the
resulting map exactly when it is the name of a configured token, and the map
has as many entries as the list has tokens; a token whose name is the empty
string is stored and found like any other. -/
theorem buildTokens_abort_iff_repeated (ts : List Token) :
    ((∃ n, buildTokens ts = .error n) ↔ ¬ (ts.map Token.Name).Nodup) ∧
    (∀ tokens, buildTokens ts = .ok tokens →
      (∀ n, tokens.get n ≠ none ↔ n ∈ ts.map Token.Name) ∧ tokens.len = ts.length) ∧
    (∀ t ∈ ts, t.Name = "" → (ts.map Token.Name).Nodup →
      ∃ tokens, buildTokens ts = .ok tokens ∧ tokens.get "" = some t.Key) := by
  refine ⟨buildTokens_error_iff ts, fun tokens hok => ?_, fun t ht hname hnd => ?_⟩
  · have hnd : (ts.map Token.Name).Nodup := by
      by_contra hc
      obtain ⟨n, hn⟩ := (buildTokens_error_iff ts).mpr hc
      rw [hok] at hn
      cases hn
    obtain ⟨m, hm, hall, hnone, hlen⟩ := buildTokens_ok ts hnd
    rw [hok] at hm
    cases hm
    refine ⟨fun n => ⟨fun hget => ?_, fun hin => ?_⟩, hlen⟩
    · by_contra hc
      exact hget (hnone n hc)
    · obtain ⟨t, ht, rfl⟩ := List.mem_map.mp hin
      rw [hall t ht]
      simp
  · obtain ⟨m, hm, hall, -, -⟩ := buildTokens_ok ts hnd
    exact ⟨m, hm, hname ▸ hall t ht⟩

/-- Witness of C10: a list with a repeated name aborts, a list with distinct
names one of which is empty builds a map of two entries that finds both names
and no other. -/
theorem buildTokens_abort_iff_repeated_witness :
    (∃ n, buildTokens cfgDuplicate.Tokens = .error n) ∧
    (∃ tokens, buildTokens [⟨"", "k0"⟩, ⟨"svc-a", "secret1"⟩] = .ok tokens ∧
      tokens.get "" = some "k0" ∧ tokens.get "svc-a" = some "secret1" ∧
      tokens.get "svc-b" = none ∧ tokens.len = 2) := by
  refine ⟨(buildTokens_abort_iff_repeated cfgDuplicate.Tokens).1.mpr (by decide), ?_⟩
  exact ⟨_, rfl, by decide, by decide, by decide, by decide⟩

/-- C1: for every token list in which some name occurs more than once, `main`
ends before `cosign.NewFilter`, `api.NewAPI` and the launch of `api.Start`:
none of them occurs in the run, the process ends, and when the log level
parses `main` returns right after logging the repeated name. -/
theorem main_duplicate_aborts (cfg : Config) (env : Env)
    (hdup : ¬ (cfg.Tokens.map Token.Name).Nodup) :
    (main cfg env).exit ≠ none ∧
    (∀ e ∈ (main cfg env).trace,
      e.isNewFilter = false ∧ e.isNewAPI = false ∧ e.isGoStart = false) ∧
    (env.parseLevel = none → ∃ name, 2 ≤ (cfg.Tokens.map Token.Name).count name ∧
      (main cfg env).trace =
        [Event.info [("module", "init")] "Starting up dice-api",
         Event.info [("module", "init"), ("name", name)]
           "multiple tokens exist with the same name"]) := by
  obtain ⟨n, hn⟩ := (buildTokens_error_iff cfg.Tokens).mpr hdup
  have hcount := buildTokens_error_name cfg.Tokens n hn
  cases hp : env.parseLevel with
  | some e => simp [main, hp, Event.isNewFilter, Event.isNewAPI, Event.isGoStart]
  | none =>
    refine ⟨by simp [main, hp, hn], ?_, fun _ => ⟨n, hcount, by simp [main, hp, hn]⟩⟩
    simp [main, hp, hn, Event.isNewFilter, Event.isNewAPI, Event.isGoStart]

/-- Witness of C1 on a configuration in which `svc-a` occurs twice. -/
theorem main_duplicate_aborts_witness :
    ¬ (cfgDuplicate.Tokens.map Token.Name).Nodup ∧
    (main cfgDuplicate envClean).exit ≠ none ∧
    (∀ e ∈ (main cfgDuplicate envClean).trace,
      e.isNewFilter = false ∧ e.isNewAPI = false ∧ e.isGoStart = false) :=
  ⟨by decide, (main_duplicate_aborts cfgDuplicate envClean (by decide)).1,
    (main_duplicate_aborts cfgDuplicate envClean (by decide)).2.1⟩

/-- C3, evaluated on the code: with the name `svc-a` configured twice and a log
level that parses, `main` logs at level Info and returns, so the process exits
with code 0, the code of a clean shutdown. -/
theorem main_duplicate_exit_zero :
    ¬ (cfgDuplicate.Tokens.map Token.Name).Nodup ∧
    (main cfgDuplicate envClean).exit = some 0 ∧
    (main cfgDistinct envClean).exit = some 0 := by
  decide

/-- C4: for every configuration whose token names are pairwise distinct, when
`cosign.NewFilter` is called and returns an error, `main` ends with `Fatal`,
exit code 1: `api.NewAPI` is not called and `api.Start` is not launched. -/
theorem main_newFilter_error_aborts (cfg : Config) (env : Env) (err : String)
    (hnd : (cfg.Tokens.map Token.Name).Nodup) (hp : env.parseLevel = none)
    (herr : env.newFilter = some err) :
    (main cfg env).exit = some 1 ∧
    (main cfg env).trace =
      [Event.info [("module", "init")] "Starting up dice-api",
       Event.newFilter cfg.CoSign,
       Event.fatal [("module", "init"), ("error", err), ("addr", cfg.CoSign.DaemonAddress)]
         "Unable to connect to the CoSign daemon"] ∧
    (∀ e ∈ (main cfg env).trace, e.isNewAPI = false ∧ e.isGoStart = false) := by
  obtain ⟨m, hm, -⟩ := buildTokens_ok cfg.Tokens hnd
  simp [main, hp, hm, herr, Event.isNewAPI, Event.isGoStart]

/-- Witness of C4: distinct names, the daemon refuses the connection. -/
theorem main_newFilter_error_aborts_witness :
    (main cfgDistinct ⟨none, some "connection refused", true, none, none, none⟩).exit
      = some 1 :=
  (main_newFilter_error_aborts cfgDistinct
    ⟨none, some "connection refused", true, none, none, none⟩ "connection refused"
    (by decide) rfl rfl).1

/-! ## Claims about startup and shutdown order -/

/-- The run of `main` in each of its four outcomes before serving, and in the
serving case as the startup events followed by the shutdown path. -/
theorem main_cases (cfg : Config) (env : Env) :
    (∃ e, env.parseLevel = some e ∧ main cfg env = ⟨[Event.panicked e], some 2⟩) ∨
    (∃ name, env.parseLevel = none ∧ buildTokens cfg.Tokens = .error name ∧
      main cfg env = ⟨[Event.info [("module", "init")] "Starting up dice-api",
        Event.info [("module", "init"), ("name", name)]
          "multiple tokens exist with the same name"], some 0⟩) ∨
    (∃ tokens e, env.parseLevel = none ∧ buildTokens cfg.Tokens = .ok tokens ∧
      env.newFilter = some e ∧
      main cfg env = ⟨[Event.info [("module", "init")] "Starting up dice-api",
        Event.newFilter cfg.CoSign,
        Event.fatal [("module", "init"), ("error", e), ("addr", cfg.CoSign.DaemonAddress)]
          "Unable to connect to the CoSign daemon"], some 1⟩) ∨
    (∃ tokens, env.parseLevel = none ∧ buildTokens cfg.Tokens = .ok tokens ∧
      env.newFilter = none ∧
      main cfg env = ⟨[Event.info [("module", "init")] "Starting up dice-api",
        Event.newFilter cfg.CoSign,
        Event.info [("module", "init"), ("addr", cfg.CoSign.DaemonAddress)]
          "Connected to the CoSign daemon",
        Event.newAPI (NewAPI cfg ⟨cfg.CoSign⟩ tokens),
        Event.goStart cfg.Address] ++ (withStart env.start (shutdownPath env)).trace,
        (withStart env.start (shutdownPath env)).exit⟩) := by
  cases hp : env.parseLevel with
  | some e => left; exact ⟨e, rfl, by simp [main, hp]⟩
  | none =>
    right
    cases hb : buildTokens cfg.Tokens with
    | error name => left; exact ⟨name, rfl, rfl, by simp [main, hp, hb]⟩
    | ok tokens =>
      right
      cases hf : env.newFilter with
      | some e => left; exact ⟨tokens, e, rfl, rfl, rfl, by simp [main, hp, hb, hf]⟩
      | none => right; exact ⟨tokens, rfl, rfl, rfl, by simp [main, hp, hb, hf]⟩

/-- The goroutine either leaves the run of the main path as it is, or cuts it
after some `k` events, within its length, and ends it with `Fatal`, code 1. -/
theorem withStart_cases (st : Option (Nat × String)) (r : Run) :
    withStart st r = r ∨
    ∃ k e, st ≠ none ∧ k ≤ r.trace.length ∧
      withStart st r =
        ⟨r.trace.take k ++ [Event.fatal [("module", "init"), ("error", e)] "API server failed"],
          some 1⟩ := by
  rcases st with _ | ⟨k, e⟩
  · left; rfl
  · by_cases hc : k < r.trace.length ∨ r.exit = none
    · right
      rcases Nat.lt_or_ge k r.trace.length with hk | hk
      · exact ⟨k, e, by simp, Nat.le_of_lt hk, by simp [withStart, hc]⟩
      · refine ⟨r.trace.length, e, by simp, le_refl _, ?_⟩
        simp [withStart, hc, List.take_of_length_le hk]
    · left
      simp [withStart, hc]

/-- C8, as the code has it: on receipt of a termination signal while serving,
`main` first calls `filter.Quit()`; only when that returns no error does it
then call `context.WithTimeout` and `api.Shutdown(ctx)`, with a timeout of
exactly 5 seconds; when `filter.Quit()` returns an error the process exits with
code 1 and `api.Shutdown` is never begun. Every `api.Shutdown` of a run has the
timeout of 5 seconds and comes after the signal and after `filter.Quit()`,
never before it. The run that serves, is sent a signal and is not ended by a
failure of `api.Start` is given by the inputs: the log level parses, the names
are pairwise distinct, `cosign.NewFilter` returns no error. -/
theorem main_quit_then_shutdown_5s (cfg : Config) (env : Env) :
    (∀ d, Event.shutdown d ∈ (main cfg env).trace → d = 5 * Second ∧ d = 5000000000) ∧
    ((main cfg env).trace.any Event.isShutdown = true →
      occursBefore Event.isSignalled Event.isQuit (main cfg env).trace = true ∧
      occursBefore Event.isQuit Event.isShutdown (main cfg env).trace = true ∧
      env.quit = none) ∧
    occursBefore Event.isShutdown Event.isQuit (main cfg env).trace = false ∧
    (env.parseLevel = none → (cfg.Tokens.map Token.Name).Nodup → env.newFilter = none →
      env.signal = true → env.start = none →
      Event.signalled ∈ (main cfg env).trace ∧
      occursBefore Event.isSignalled Event.isQuit (main cfg env).trace = true ∧
      (env.quit = none →
        Event.withTimeout (5 * Second) ∈ (main cfg env).trace ∧
        Event.shutdown (5 * Second) ∈ (main cfg env).trace ∧
        occursBefore Event.isQuit Event.isShutdown (main cfg env).trace = true) ∧
      (env.quit ≠ none →
        (main cfg env).trace.any Event.isShutdown = false ∧
        (∀ d, Event.withTimeout d ∉ (main cfg env).trace) ∧
        (main cfg env).exit = some 1)) := by
  have order : (∀ d, Event.shutdown d ∈ (main cfg env).trace →
        d = 5 * Second ∧ d = 5000000000) ∧
      ((main cfg env).trace.any Event.isShutdown = true →
        occursBefore Event.isSignalled Event.isQuit (main cfg env).trace = true ∧
        occursBefore Event.isQuit Event.isShutdown (main cfg env).trace = true ∧
        env.quit = none) ∧
      occursBefore Event.isShutdown Event.isQuit (main cfg env).trace = false := by
    rcases main_cases cfg env with
      ⟨e, -, h⟩ | ⟨n, -, -, h⟩ | ⟨m, e, -, -, -, h⟩ | ⟨m, -, -, -, h⟩
    · simp [h, occursBefore, Event.isShutdown, Event.isQuit, Event.isSignalled]
    · simp [h, occursBefore, Event.isShutdown, Event.isQuit, Event.isSignalled]
    · simp [h, occursBefore, Event.isShutdown, Event.isQuit, Event.isSignalled]
    · rw [h]
      rcases env with ⟨pl, nf, sg, q, sh, st⟩
      rcases withStart_cases st (shutdownPath ⟨pl, nf, sg, q, sh, st⟩) with
        hw | ⟨k, e, hst, hk, hw⟩
      · simp only [hw]
        cases sg <;> cases q <;> cases sh <;>
          simp [shutdownPath, occursBefore, Event.isShutdown, Event.isQuit,
            Event.isSignalled, Second]
      · simp only [hw]
        cases sg <;> cases q <;> cases sh <;> simp [shutdownPath] at hk <;>
          interval_cases k <;>
          simp [shutdownPath, occursBefore, Event.isShutdown, Event.isQuit,
            Event.isSignalled, Second, hst]
  refine ⟨order.1, order.2.1, order.2.2, fun hp hnd hf hs hst => ?_⟩
  obtain ⟨m, hm, -⟩ := buildTokens_ok cfg.Tokens hnd
  rcases env with ⟨pl, nf, sg, q, sh, st⟩
  simp only at hp hf hs hst
  subst hp hf hs hst
  cases q <;> cases sh <;>
    simp [main, hm, withStart, shutdownPath, occursBefore, Event.isShutdown, Event.isQuit,
      Event.isSignalled]

/-- Witness of C8 as amended, on a run that serves and is signalled:
`filter.Quit()` returns no error, then `api.Shutdown` is called under a
timeout of 5 seconds. -/
theorem main_quit_then_shutdown_5s_witness :
    Event.signalled ∈ (main cfgDistinct envClean).trace ∧
    Event.shutdown (5 * Second) ∈ (main cfgDistinct envClean).trace ∧
    occursBefore Event.isQuit Event.isShutdown (main cfgDistinct envClean).trace = true :=
  ⟨((main_quit_then_shutdown_5s cfgDistinct envClean).2.2.2
      rfl (by decide) rfl rfl rfl).1,
    (((main_quit_then_shutdown_5s cfgDistinct envClean).2.2.2
      rfl (by decide) rfl rfl rfl).2.2.1 rfl).2.1,
    ((main_quit_then_shutdown_5s cfgDistinct envClean).2.1 (by decide)).2.1⟩

/-- C8 as stated fails: on a run that serves and receives a termination signal,
`filter.Quit()` is called and returns an error, and `main` ends with `Fatal`,
exit code 1, without calling `context.WithTimeout` or `api.Shutdown`. -/
theorem main_quit_error_never_shutdown :
    (main cfgDistinct envQuitFails).trace.any Event.isGoStart = true ∧
    Event.signalled ∈ (main cfgDistinct envQuitFails).trace ∧
    Event.quit ∈ (main cfgDistinct envQuitFails).trace ∧
    (main cfgDistinct envQuitFails).trace.any Event.isShutdown = false ∧
    Event.withTimeout (5 * Second) ∉ (main cfgDistinct envQuitFails).trace ∧
    (main cfgDistinct envQuitFails).exit = some 1 := by
  decide

/-- C5, as the code has it: `api.Shutdown` never comes before `filter.Quit()`;
whenever `api.Shutdown` is called, `filter.Quit()` was called before it and
returned no error; on startup the registry is built, then `cosign.NewFilter`
is called, then `api.NewAPI` with the built registry, then `api.Start` is
launched; a signal is only received after that launch, and a run that receives
it and is not ended by a failure of `api.Start` calls `filter.Quit()` and, when
that returns no error, `api.Shutdown`. -/
theorem main_order_quit_before_shutdown (cfg : Config) (env : Env) :
    occursBefore Event.isShutdown Event.isQuit (main cfg env).trace = false ∧
    ((main cfg env).trace.any Event.isShutdown = true →
      occursBefore Event.isQuit Event.isShutdown (main cfg env).trace = true ∧
      env.quit = none) ∧
    ((main cfg env).trace.any Event.isNewFilter = true →
      ∃ tokens, buildTokens cfg.Tokens = .ok tokens) ∧
    ((main cfg env).trace.any Event.isGoStart = true →
      ∃ tokens, buildTokens cfg.Tokens = .ok tokens ∧
        Event.newAPI (NewAPI cfg ⟨cfg.CoSign⟩ tokens) ∈ (main cfg env).trace ∧
        occursBefore Event.isNewFilter Event.isNewAPI (main cfg env).trace = true ∧
        occursBefore Event.isNewAPI Event.isGoStart (main cfg env).trace = true) ∧
    ((main cfg env).trace.any Event.isSignalled = true →
      occursBefore Event.isGoStart Event.isSignalled (main cfg env).trace = true ∧
      (env.start = none → (main cfg env).trace.any Event.isQuit = true ∧
        (env.quit = none → (main cfg env).trace.any Event.isShutdown = true))) := by
  rcases main_cases cfg env with ⟨e, -, h⟩ | ⟨n, -, -, h⟩ | ⟨m, e, -, hm, -, h⟩ | ⟨m, -, hm, -, h⟩
  · simp [h, occursBefore, Event.isShutdown, Event.isQuit, Event.isSignalled,
      Event.isNewFilter, Event.isNewAPI, Event.isGoStart]
  · simp [h, occursBefore, Event.isShutdown, Event.isQuit, Event.isSignalled,
      Event.isNewFilter, Event.isNewAPI, Event.isGoStart]
  · simp [h, hm, occursBefore, Event.isShutdown, Event.isQuit, Event.isSignalled,
      Event.isNewFilter, Event.isNewAPI, Event.isGoStart]
  · rw [h, hm]
    rcases env with ⟨pl, nf, sg, q, sh, st⟩
    rcases withStart_cases st (shutdownPath ⟨pl, nf, sg, q, sh, st⟩) with hw | ⟨k, e, hst, hk, hw⟩
    · simp only [hw]
      cases sg <;> cases q <;> cases sh <;>
        simp [shutdownPath, occursBefore, Event.isShutdown, Event.isQuit,
          Event.isSignalled, Event.isNewFilter, Event.isNewAPI, Event.isGoStart]
    · simp only [hw]
      cases sg <;> cases q <;> cases sh <;> simp [shutdownPath] at hk <;>
        interval_cases k <;>
        simp [shutdownPath, occursBefore, Event.isShutdown, Event.isQuit,
          Event.isSignalled, Event.isNewFilter, Event.isNewAPI, Event.isGoStart, hst]

/-- Witness of C5 as amended, on a run that serves, is signalled and shuts down
cleanly. -/
theorem main_order_quit_before_shutdown_witness :
    (main cfgDistinct envClean).trace.any Event.isShutdown = true ∧
    occursBefore Event.isQuit Event.isShutdown (main cfgDistinct envClean).trace = true :=
  ⟨by decide, ((main_order_quit_before_shutdown cfgDistinct envClean).2.1 (by decide)).1⟩

/-- C5 as stated fails: on a run that reaches serving, receives a signal and
calls both `filter.Quit()` and `api.Shutdown`, no `api.Shutdown` comes before
`filter.Quit()`. -/
theorem main_shutdown_not_before_quit :
    (main cfgDistinct envClean).trace.any Event.isGoStart = true ∧
    (main cfgDistinct envClean).trace.any Event.isSignalled = true ∧
    (main cfgDistinct envClean).trace.any Event.isQuit = true ∧
    (main cfgDistinct envClean).trace.any Event.isShutdown = true ∧
    occursBefore Event.isShutdown Event.isQuit (main cfgDistinct envClean).trace = false := by
  decide

/-- C7: after a termination signal, when `filter.Quit()` was called and returns
an error the process exits with code 1 and `api.Shutdown` is never called; when
`api.Shutdown` was called and returns an error the process exits with code 1;
the process exits with code 0 only when both were called and both returned no
error, and it does exit with code 0 then, unless `api.Start` fails. -/
theorem main_shutdown_failures_fatal (cfg : Config) (env : Env) :
    (Event.quit ∈ (main cfg env).trace → env.quit ≠ none →
      (main cfg env).exit = some 1 ∧ (main cfg env).trace.any Event.isShutdown = false) ∧
    ((main cfg env).trace.any Event.isShutdown = true → env.shutdown ≠ none →
      (main cfg env).exit = some 1 ∧ env.quit = none) ∧
    (Event.signalled ∈ (main cfg env).trace → (main cfg env).exit = some 0 →
      env.quit = none ∧ env.shutdown = none ∧ Event.quit ∈ (main cfg env).trace ∧
        Event.shutdown (5 * Second) ∈ (main cfg env).trace) ∧
    (Event.signalled ∈ (main cfg env).trace → env.quit = none → env.shutdown = none →
      env.start = none → (main cfg env).exit = some 0) := by
  rcases main_cases cfg env with ⟨e, -, h⟩ | ⟨n, -, -, h⟩ | ⟨m, e, -, -, -, h⟩ | ⟨m, -, -, -, h⟩
  · simp [h, Event.isShutdown]
  · simp [h, Event.isShutdown]
  · simp [h, Event.isShutdown]
  · rw [h]
    rcases env with ⟨pl, nf, sg, q, sh, st⟩
    rcases withStart_cases st (shutdownPath ⟨pl, nf, sg, q, sh, st⟩) with hw | ⟨k, e, hst, hk, hw⟩
    · simp only [hw]
      rcases st with _ | ⟨k, e⟩ <;> cases sg <;> cases q <;> cases sh <;>
        simp [shutdownPath, Event.isShutdown]
    · simp only [hw]
      cases sg <;> cases q <;> cases sh <;> simp [shutdownPath] at hk <;>
        interval_cases k <;>
        simp [shutdownPath, Event.isShutdown, hst]

/-- Witness of C7: a failing `filter.Quit()` ends the process with code 1 before
any `api.Shutdown`; a failing `api.Shutdown` ends it with code 1; a clean
shutdown ends it with code 0. -/
theorem main_shutdown_failures_fatal_witness :
    ((main cfgDistinct envQuitFails).exit = some 1 ∧
      (main cfgDistinct envQuitFails).trace.any Event.isShutdown = false) ∧
    (main cfgDistinct envShutdownFails).exit = some 1 ∧
    (main cfgDistinct envClean).exit = some 0 :=
  ⟨(main_shutdown_failures_fatal cfgDistinct envQuitFails).1 (by decide) (by decide),
    ((main_shutdown_failures_fatal cfgDistinct envShutdownFails).2.1
      (by decide) (by decide)).1,
    (main_shutdown_failures_fatal cfgDistinct envClean).2.2.2 (by decide) rfl rfl rfl⟩

/-! ## Claims about the route table and the token check -/

/-- C6, as the code has it: `NewAPI` registers exactly two routes, both for
method GET: `frontend.Valid` at `/cosign/valid`, and `backend.Check` at
`/check/:token_name/:token_key/:login_cookie`, which is the literal segment
`check` followed by the three parameters `token_name`, `token_key` and
`login_cookie`, in that order. -/
theorem NewAPI_routes (conf : Config) (filter : Filter) (tokens : GoMap) :
    (NewAPI conf filter tokens).Gin.routes =
      [⟨"GET", "/cosign/valid", Handler.frontendValid⟩,
       ⟨"GET", "/check/:token_name/:token_key/:login_cookie", Handler.backendCheck⟩] ∧
    (NewAPI conf filter tokens).Gin.routes.map (fun r => segmentsOf r.path) =
      [[Segment.literal "cosign", Segment.literal "valid"],
       [Segment.literal "check", Segment.param "token_name", Segment.param "token_key",
        Segment.param "login_cookie"]] ∧
    (NewAPI conf filter tokens).Tokens = tokens := by
  refine ⟨rfl, ?_, rfl⟩
  simp only [NewAPI, Engine.GET, Engine.Default, List.nil_append, List.cons_append,
    List.map_cons, List.map_nil]
  decide

/-- C6 as stated fails: no route of `NewAPI` has the path `/session/valid`, and
the third parameter of the token check route is not named `session_id`. -/
theorem NewAPI_no_session_valid :
    (NewAPI cfgDistinct ⟨cfgDistinct.CoSign⟩ registrySvcA).Gin.routes.any
        (fun r => decide (r.path = "/session/valid")) = false ∧
    (NewAPI cfgDistinct ⟨cfgDistinct.CoSign⟩ registrySvcA).Gin.routes.any
        (fun r => decide (Segment.param "session_id" ∈ segmentsOf r.path)) = false := by
  decide

/-- C9: for every registry handed to `NewAPI` and every request whose name is
absent from the registry or whose key differs from the key stored under the
name, the token check answers UNAUTHORIZED, and any two such requests, one
with an absent name and one with a wrong key included, get the same
response. -/
theorem Check_unauthorized_same_response (conf : Config) (filter : Filter) (tokens : GoMap)
    (validate : String → Except String Bool) (name key sessionID : String)
    (h : (NewAPI conf filter tokens).Tokens.get name = none ∨
      ∃ stored, (NewAPI conf filter tokens).Tokens.get name = some stored ∧ key ≠ stored) :
    (Check (NewAPI conf filter tokens).Tokens validate name key sessionID).status
      = Status.UNAUTHORIZED ∧
    ∀ name' key' sessionID',
      ((NewAPI conf filter tokens).Tokens.get name' = none ∨
        ∃ stored, (NewAPI conf filter tokens).Tokens.get name' = some stored ∧ key' ≠ stored) →
      Check (NewAPI conf filter tokens).Tokens validate name' key' sessionID'
        = Check (NewAPI conf filter tokens).Tokens validate name key sessionID := by
  have key_fact : ∀ n k s, (tokens.get n = none ∨ ∃ stored, tokens.get n = some stored ∧
      k ≠ stored) → Check tokens validate n k s = Response.verdict false := by
    intro n k s hn
    rcases hn with hn | ⟨stored, hn, hne⟩
    · simp [Check, hn]
    · simp [Check, hn, hne]
  have hT : (NewAPI conf filter tokens).Tokens = tokens := rfl
  rw [hT] at h ⊢
  refine ⟨by rw [key_fact name key sessionID h]; rfl, fun n k s hn => ?_⟩
  rw [key_fact n k s hn, key_fact name key sessionID h]

/-- Witness of C9 on the registry with `svc-a`: a wrong key for `svc-a` and
the unknown name `svc-x` are both answered UNAUTHORIZED with equal responses,
though the validator reports the session valid. -/
theorem Check_unauthorized_same_response_witness :
    (Check registrySvcA validateAll "svc-a" "wrongsecret" "validcookie").status
      = Status.UNAUTHORIZED ∧
    Check registrySvcA validateAll "svc-x" "secret1" "validcookie"
      = Check registrySvcA validateAll "svc-a" "wrongsecret" "validcookie" :=
  ⟨(Check_unauthorized_same_response cfgDistinct ⟨cfgDistinct.CoSign⟩ registrySvcA validateAll
      "svc-a" "wrongsecret" "validcookie" (Or.inr ⟨"secret1", by decide, by decide⟩)).1,
    (Check_unauthorized_same_response cfgDistinct ⟨cfgDistinct.CoSign⟩ registrySvcA validateAll
      "svc-a" "wrongsecret" "validcookie" (Or.inr ⟨"secret1", by decide, by decide⟩)).2
      "svc-x" "secret1" "validcookie" (Or.inl (by decide))⟩

end CosignWebapi

